import Mathlib

/-!
Shallow embedding of the Financial Risk Projection Engine of the
`backend_traevo` repository, together with theorems settling the frozen
claims about it.

Conventions of the embedding:
* Python `Decimal` values are modelled as exact rationals (`ℚ`).  All
  divisions occurring in the engine are modelled exactly; the only rounding
  the engine performs is the explicit `quantize(Decimal("0.01"))` call,
  which is modelled by `round_half_even` (the default rounding mode of the
  Python decimal context is ROUND_HALF_EVEN).
* Database reads (repositories) are replaced by explicit parameters holding
  the rows the queries would return; `datetime.now()` components
  (day-of-month, month, year, number of days in the month) are likewise
  explicit parameters.
* Python code that raises an exception is modelled with `Except String`,
  the error string naming the exception.
-/

namespace Traevo

/-- A row of the `TRAEVO_TRANSACOES` table (a Ledger Entry), restricted to
the columns the engine reads: owner, category, amount (`VALOR`,
`Numeric(10,2)`, hence a `Decimal` at runtime), transaction date
(year and month components), and direction (`TIPO`, either
`"ENTRADA"` or `"SAIDA"`). -/
structure Transacao where
  id_usuario : String
  id_categoria : String
  valor : ℚ
  ano : Int
  mes : Nat
  tipo : String
  deriving DecidableEq, Repr

/-- The statistics dictionary returned by
`IAAnalysisService._calcular_estatisticas_historicas`. -/
structure Estatisticas where
  media_gastos_mes : ℚ
  desvio_padrao : ℚ
  tendencia : String
  total_historico : ℚ
  deriving DecidableEq, Repr

/-- One step of the Python dict update
`gastos_por_mes[mes_key] = gastos_por_mes.get(mes_key, 0) + valor`:
an insertion-ordered association list, updating in place when the
`(year, month)` key is already present and appending otherwise. -/
def addGasto : List ((Int × Nat) × ℚ) → (Int × Nat) → ℚ → List ((Int × Nat) × ℚ)
  | [], k, v => [(k, v)]
  | (k0, v0) :: rest, k, v =>
      if k0 = k then (k0, v0 + v) :: rest else (k0, v0) :: addGasto rest k v

/-- Body of the grouping loop of `_calcular_estatisticas_historicas`
(lines 110-113): outflow (`"SAIDA"`) transactions are accumulated under
their `(year, month)` key; inflow transactions are skipped. -/
def gastos_step (acc : List ((Int × Nat) × ℚ)) (t : Transacao) :
    List ((Int × Nat) × ℚ) :=
  if t.tipo = "SAIDA" then addGasto acc (t.ano, t.mes) t.valor else acc

/-- The `gastos_por_mes` dict of `_calcular_estatisticas_historicas`,
as an insertion-ordered association list from `(year, month)` to the
monthly outflow sum. -/
def gastos_por_mes (historico : List Transacao) : List ((Int × Nat) × ℚ) :=
  historico.foldl gastos_step []

/-- Trend detection block of `_calcular_estatisticas_historicas`
(lines 126-133): starting from `"estavel"`, when at least 3 monthly values
exist, compare the last of the final three values against the first of
them times `Decimal("1.1")` and `Decimal("0.9")`. -/
def detectar_tendencia (valores : List ℚ) : String :=
  if 3 ≤ valores.length then
    let ultimos_3 := valores.drop (valores.length - 3)
    if ultimos_3.getLastD 0 > ultimos_3.headD 0 * (11/10) then "crescente"
    else if ultimos_3.getLastD 0 < ultimos_3.headD 0 * (9/10) then "decrescente"
    else "estavel"
  else "estavel"

/-- The exception raised by `variancia ** 0.5` on line 122 of
`ia_analysis_service.py`: `variancia` is a `Decimal` and `0.5` a float,
and Python refuses arithmetic mixing `Decimal` with `float`. -/
def typeErrorPow : String :=
  "TypeError: unsupported operand type(s) for ** or pow(): decimal.Decimal and float"

/-- `IAAnalysisService._calcular_estatisticas_historicas` (lines 90-140).
An empty history returns the all-zero / `"estavel"` record at once.
Otherwise outflows are grouped by month, the mean is computed, and then
— whenever more than one monthly value exists — line 122 evaluates
`variancia ** 0.5` with a `Decimal` base and a float exponent, which
raises `TypeError`; only with at most one monthly value does the function
reach the trend detection and return normally (with `desvio = 0`). -/
def calcular_estatisticas_historicas (historico : List Transacao) :
    Except String Estatisticas :=
  if historico.isEmpty then
    .ok { media_gastos_mes := 0, desvio_padrao := 0,
          tendencia := "estavel", total_historico := 0 }
  else
    let valores := (gastos_por_mes historico).map Prod.snd
    let media := if valores.isEmpty then 0 else valores.sum / (valores.length : ℚ)
    if 1 < valores.length then
      .error typeErrorPow
    else
      .ok { media_gastos_mes := media, desvio_padrao := 0,
            tendencia := detectar_tendencia valores,
            total_historico := valores.sum }

/-- Round a rational to the nearest integer, ties to the even neighbour:
the ROUND_HALF_EVEN mode that `Decimal.quantize` uses under the default
decimal context. -/
def round_half_even (x : ℚ) : ℤ :=
  let f := Int.floor x
  let r := x - f
  if r < 1/2 then f
  else if 1/2 < r then f + 1
  else if f % 2 = 0 then f else f + 1

/-- `value.quantize(Decimal("0.01"))` under the default decimal context:
round to two fractional digits, ties to even. -/
def quantize_half_even (x : ℚ) : ℚ :=
  (round_half_even (x * 100) : ℚ) / 100

/-- `IAAnalysisService._projetar_gasto_mes` (lines 142-186), with the
repository read (`total_saidas` of the current month) and the calendar
reads (`now.day`, days in the current month) as parameters, and the two
fields of `estatisticas` that the function reads passed individually. -/
def projetar_gasto_mes (gasto_atual_mes : ℚ) (dias_decorridos : Nat)
    (dias_no_mes : Nat) (tendencia : String) (media_gastos_mes : ℚ) : ℚ :=
  let projecao_base :=
    if 0 < dias_decorridos then
      let media_diaria := gasto_atual_mes / (dias_decorridos : ℚ)
      media_diaria * (dias_no_mes : ℚ)
    else media_gastos_mes
  let projecao_final :=
    if tendencia = "crescente" then projecao_base * (11/10)
    else if tendencia = "decrescente" then projecao_base * (9/10)
    else projecao_base
  quantize_half_even projecao_final

/-- A row of the `TRAEVO_ORCAMENTOS` table (a Budget), restricted to the
columns the engine reads. -/
structure Orcamento where
  id_orcamento : String
  id_usuario : String
  id_categoria : String
  mes_referencia : Nat
  ano_referencia : Int
  limite_total : ℚ
  deriving DecidableEq, Repr

/-- `IAAnalysisService._calcular_indice_risco` (lines 188-243), with the
repository reads (active budgets, current-month outflow total) and
`now.day` as parameters. -/
def calcular_indice_risco (orcamentos : List Orcamento)
    (valor_projetado : ℚ) (gasto_atual : ℚ) (dia : Nat)
    (tendencia : String) : String :=
  if orcamentos.isEmpty then "AMARELO"
  else
    let limite_total := (orcamentos.map Orcamento.limite_total).sum
    let percentual_projetado :=
      if 0 < limite_total then valor_projetado / limite_total * 100 else 0
    let percentual_atual :=
      if 0 < limite_total then gasto_atual / limite_total * 100 else 0
    if 90 < percentual_projetado then "VERMELHO"
    else if 70 < percentual_atual ∧ dia < 20 then "VERMELHO"
    else if 70 < percentual_projetado then "AMARELO"
    else if tendencia = "crescente" ∧ 50 < percentual_atual then "AMARELO"
    else "VERDE"

/-- Zero-padded two-digit rendering of the cents part. -/
def pad2 (n : Nat) : String :=
  if n < 10 then "0" ++ toString n else toString n

/-- Python `f-string` formatting `f"{valor:.2f}"` of a `Decimal`: two
fractional digits, rounding (ties to even, per the decimal context) when
the value carries more precision. -/
def formatValor (v : ℚ) : String :=
  let cents := round_half_even (v * 100)
  let a := cents.natAbs
  (if cents < 0 then "-" else "") ++ toString (a / 100) ++ "." ++ pad2 (a % 100)

/-- The extra clause appended on line 281 when the trend is rising. -/
def alerta_crescente : String :=
  " Seus gastos têm aumentado nos últimos meses."

/-- The `"VERDE"` template pool (lines 259-263), with the formatted
projected amount embedded where the f-strings embed it. -/
def mensagens_verde (vf : String) : List String :=
  ["Ótimo trabalho! Seu gasto projetado é de R$ " ++ vf ++ ". Você está no controle!",
   "Parabéns! Suas finanças estão saudáveis. Continue assim! 💚",
   "Você está indo muito bem! Gasto projetado: R$ " ++ vf ++ ". Mantenha o ritmo!"]

/-- The `"AMARELO"` template pool (lines 264-268). -/
def mensagens_amarelo (vf : String) : List String :=
  ["Atenção: Gasto projetado de R$ " ++ vf ++ ". Considere revisar gastos não essenciais.",
   "Seus gastos estão aumentando. Que tal revisar algumas categorias? 💛",
   "Você está no limite! Gasto projetado: R$ " ++ vf ++ ". Planeje os próximos dias com cuidado."]

/-- The `"VERMELHO"` template pool (lines 269-273). -/
def mensagens_vermelho (vf : String) : List String :=
  ["Alerta! Gasto projetado de R$ " ++ vf ++ " pode exceder seu orçamento. Priorize o essencial! 🚨",
   "Cuidado! Você está próximo do limite. Evite gastos não essenciais nos próximos dias.",
   "Seus gastos estão acima do planejado. Vamos ajustar juntos? Revise suas prioridades. ❤️"]

/-- The dict lookup `mensagens[indice_risco]` (line 277).  The classifier
only ever produces the three keys below (and the `INDICE_RISCO` column has
a CHECK constraint to the same effect); any other key would raise
`KeyError`, modelled by the empty pool. -/
def mensagens_pool (indice : String) (vf : String) : List String :=
  if indice = "VERDE" then mensagens_verde vf
  else if indice = "AMARELO" then mensagens_amarelo vf
  else if indice = "VERMELHO" then mensagens_vermelho vf
  else []

/-- `IAAnalysisService._gerar_mensagem_insight` (lines 245-283): format the
projected amount, pick the pool for the tier, always use template index 0,
and append the extra clause when the trend is `"crescente"` and the tier is
not `"VERDE"`. -/
def gerar_mensagem_insight (indice_risco : String) (valor_projetado : ℚ)
    (tendencia : String) : String :=
  let vf := formatValor valor_projetado
  let mensagens_disponiveis := mensagens_pool indice_risco vf
  if tendencia = "crescente" ∧ indice_risco ≠ "VERDE" then
    mensagens_disponiveis.headD "" ++ alerta_crescente
  else
    mensagens_disponiveis.headD ""

/-- A row of the `TRAEVO_CATEGORIAS` table, restricted to the columns the
aggregator reads. -/
structure Categoria where
  id_categoria : String
  nome : String
  deriving DecidableEq, Repr

/-- `TransacaoRepository.get_gasto_por_categoria` (lines 47-53): the sum of
`VALOR` over the user's `"SAIDA"` transactions of the given category whose
date falls in the given month and year. -/
def get_gasto_por_categoria (transacoes : List Transacao)
    (usuario_id categoria_id : String) (mes : Nat) (ano : Int) : ℚ :=
  ((transacoes.filter fun t =>
      t.id_usuario == usuario_id && t.id_categoria == categoria_id &&
      t.tipo == "SAIDA" && t.mes == mes && t.ano == ano).map
    Transacao.valor).sum

/-- `CategoriaRepository.find_by_id`, modelled over the category rows. -/
def find_by_id (categorias : List Categoria) (categoria_id : String) :
    Option Categoria :=
  categorias.find? fun c => c.id_categoria == categoria_id

/-- One entry of the list returned by
`OrcamentoService.get_orcamentos_com_status` (a Budget Status View). -/
structure StatusOrcamento where
  orcamento : Orcamento
  categoria_nome : String
  gasto_atual : ℚ
  percentual_uso : ℚ
  saldo_disponivel : ℚ
  deriving DecidableEq, Repr

/-- `OrcamentoService.get_orcamentos_com_status` (lines 80-137), with the
repository reads as parameters: `orcamentos` is what
`OrcamentoRepository.find_all_by_mes_ano` returns (its query carries no
ORDER BY, and the service applies no sort of its own), and each budget is
enriched in that order with its actual spend, percent used (guarded to 0
for a non-positive limit), remaining balance, and category display name
(placeholder `"Desconhecida"` when the category cannot be resolved). -/
def get_orcamentos_com_status (orcamentos : List Orcamento)
    (transacoes : List Transacao) (categorias : List Categoria)
    (usuario_id : String) (mes : Nat) (ano : Int) : List StatusOrcamento :=
  orcamentos.map fun orcamento =>
    let gasto_atual :=
      get_gasto_por_categoria transacoes usuario_id orcamento.id_categoria mes ano
    let percentual_uso :=
      if 0 < orcamento.limite_total then gasto_atual / orcamento.limite_total * 100
      else 0
    let saldo_disponivel := orcamento.limite_total - gasto_atual
    { orcamento := orcamento
      categoria_nome :=
        match find_by_id categorias orcamento.id_categoria with
        | some categoria => categoria.nome
        | none => "Desconhecida"
      gasto_atual := gasto_atual
      percentual_uso := percentual_uso
      saldo_disponivel := saldo_disponivel }

/-- A row of the `TRAEVO_PREVISOES_IA` table (a Prediction).
`data_geracao` is the generation timestamp (`server_default now()`). -/
structure PrevisaoIA where
  data_geracao : Nat
  valor_projetado : ℚ
  indice_risco : String
  mensagem_insight : String
  mes_alvo : Nat
  ano_alvo : Int
  deriving DecidableEq, Repr

/-- `PrevisaoIARepository.find_mais_recente_por_usuario`: `ORDER BY
DATA_GERACAO DESC` followed by `first()`, i.e. an element of maximal
generation timestamp (the SQL order among equal timestamps is not
specified; the model lets the later-inserted row win ties). -/
def find_mais_recente_por_usuario (store : List PrevisaoIA) :
    Option PrevisaoIA :=
  store.foldl
    (fun acc p =>
      match acc with
      | none => some p
      | some q => if q.data_geracao ≤ p.data_geracao then some p else some q)
    none

/-- `IAAnalysisService.gerar_previsao` (lines 32-88), with the repository
and calendar reads as parameters: the 6-month history, the active budgets,
the current-month outflow total (`total_saidas`, read by both the
projector and the classifier), `now.day`, the number of days in the
current month, the target month and year, the timestamp the store stamps
on the new row, and the current content of the prediction store.  On
success it returns the created Prediction together with the store with
that one row appended; the `TypeError` of the statistics step (see
`calcular_estatisticas_historicas`) propagates and nothing is persisted. -/
def gerar_previsao (historico : List Transacao) (orcamentos : List Orcamento)
    (gasto_atual_mes : ℚ) (dia dias_no_mes mes : Nat) (ano : Int) (ts : Nat)
    (store : List PrevisaoIA) : Except String (PrevisaoIA × List PrevisaoIA) :=
  match calcular_estatisticas_historicas historico with
  | .error e => .error e
  | .ok estatisticas =>
    let valor_projetado :=
      projetar_gasto_mes gasto_atual_mes dia dias_no_mes
        estatisticas.tendencia estatisticas.media_gastos_mes
    let indice_risco :=
      calcular_indice_risco orcamentos valor_projetado gasto_atual_mes dia
        estatisticas.tendencia
    let mensagem :=
      gerar_mensagem_insight indice_risco valor_projetado estatisticas.tendencia
    let previsao : PrevisaoIA :=
      { data_geracao := ts, valor_projetado := valor_projetado,
        indice_risco := indice_risco, mensagem_insight := mensagem,
        mes_alvo := mes, ano_alvo := ano }
    .ok (previsao, store ++ [previsao])

/-- `IAAnalysisService.get_ultima_previsao` (lines 285-296): return the
most recent stored Prediction when one exists, otherwise generate (and
persist) a new one. -/
def get_ultima_previsao (historico : List Transacao)
    (orcamentos : List Orcamento) (gasto_atual_mes : ℚ)
    (dia dias_no_mes mes : Nat) (ano : Int) (ts : Nat)
    (store : List PrevisaoIA) : Except String (PrevisaoIA × List PrevisaoIA) :=
  match find_mais_recente_por_usuario store with
  | some previsao => .ok (previsao, store)
  | none =>
    gerar_previsao historico orcamentos gasto_atual_mes dia dias_no_mes mes
      ano ts store

/-! ### Spec-side vocabulary

The spec names the trend values rising / falling / stable and the risk
tiers low / medium / high, with the coding VERDE = low, AMARELO = medium,
VERMELHO = high; the code works directly with the Portuguese strings.
The definitions below give the spec's vocabulary and its coding into the
strings of the source, used to state refinement claims. -/

/-- Trend classification, in the spec's vocabulary. -/
inductive Trend where
  | rising
  | falling
  | stable
  deriving DecidableEq, Repr

/-- The string the source uses for each trend value. -/
def trendStr : Trend → String
  | .rising => "crescente"
  | .falling => "decrescente"
  | .stable => "estavel"

/-- Risk tier, in the spec's vocabulary. -/
inductive Tier where
  | low
  | medium
  | high
  deriving DecidableEq, Repr

/-- The coding of tiers into the strings of the source
(VERDE = low, AMARELO = medium, VERMELHO = high). -/
def tierStr : Tier → String
  | .low => "VERDE"
  | .medium => "AMARELO"
  | .high => "VERMELHO"

/-- Modelled from the spec: trend multiplier of the Spend Projector,
"rising → ×1.10; falling → ×0.90; stable → ×1.00". -/
def trendMultiplier : Trend → ℚ
  | .rising => 11/10
  | .falling => 9/10
  | .stable => 1

/-- Modelled from the spec: the ordered rule chain of the Risk Classifier
as the claim states it — rule 1 before any ratio is computed, then
projectedPct > 90 → high, currentPct > 70 ∧ day < 20 → high,
projectedPct > 70 → medium, rising ∧ currentPct > 50 → medium, else low,
with both percentages 0 when the total limit is ≤ 0. -/
def risk_spec_chain (orcamentos : List Orcamento) (projected actual : ℚ)
    (day : Nat) (trend : Trend) : Tier :=
  if orcamentos = [] then .medium
  else
    let totalLimit := (orcamentos.map Orcamento.limite_total).sum
    let projectedPct := if totalLimit ≤ 0 then 0 else projected / totalLimit * 100
    let currentPct := if totalLimit ≤ 0 then 0 else actual / totalLimit * 100
    if 90 < projectedPct then .high
    else if 70 < currentPct ∧ day < 20 then .high
    else if 70 < projectedPct then .medium
    else if trend = .rising ∧ 50 < currentPct then .medium
    else .low

/-- Standard half-up rounding to the nearest integer (ties away from
zero), the mode the spec prescribes for the Spend Projector. -/
def round_half_up (x : ℚ) : ℤ :=
  if 0 ≤ x then Int.floor (x + 1/2) else Int.ceil (x - 1/2)

/-- Rounding to two fractional digits with half-up ties. -/
def quantize_half_up (x : ℚ) : ℚ :=
  (round_half_up (x * 100) : ℚ) / 100

/-- Modelled from the spec: the Spend Projector as the claim states it —
`round((actualTotal/elapsedDays * totalDaysInMonth) * m, 2 fractional
digits, standard half-up rounding)`, with the historical mean as base when
no day has elapsed. -/
def projetar_spec_half_up (actualTotal : ℚ) (elapsedDays totalDaysInMonth : Nat)
    (trend : Trend) (mean : ℚ) : ℚ :=
  let base :=
    if 0 < elapsedDays then actualTotal / (elapsedDays : ℚ) * (totalDaysInMonth : ℚ)
    else mean
  quantize_half_up (base * trendMultiplier trend)

/-- The ordering the spec claims for the Budget Status Aggregator output:
category display name strictly increasing, with the budget identifier as
the tie-break. -/
def claimed_view_order (v1 v2 : StatusOrcamento) : Prop :=
  v1.categoria_nome < v2.categoria_nome ∨
    (v1.categoria_nome = v2.categoria_nome ∧
      v1.orcamento.id_orcamento ≤ v2.orcamento.id_orcamento)

/-! ### Concrete rows used by witnesses and counterexamples -/

/-- An outflow of 100.00 dated January 2025. -/
def t_jan : Transacao :=
  { id_usuario := "u1", id_categoria := "c1", valor := 100,
    ano := 2025, mes := 1, tipo := "SAIDA" }

/-- An outflow of 200.00 dated February 2025. -/
def t_fev : Transacao :=
  { id_usuario := "u1", id_categoria := "c1", valor := 200,
    ano := 2025, mes := 2, tipo := "SAIDA" }

/-- An inflow of 50.00 dated January 2025. -/
def t_entrada : Transacao :=
  { id_usuario := "u1", id_categoria := "c1", valor := 50,
    ano := 2025, mes := 1, tipo := "ENTRADA" }

/-- An outflow of 75.00 dated January 2025. -/
def t_ex : Transacao :=
  { id_usuario := "u1", id_categoria := "c1", valor := 75,
    ano := 2025, mes := 1, tipo := "SAIDA" }

/-- A budget of limit 100.00 for category `"c1"`, January 2025. -/
def o_ex : Orcamento :=
  { id_orcamento := "o1", id_usuario := "u1", id_categoria := "c1",
    mes_referencia := 1, ano_referencia := 2025, limite_total := 100 }

/-- A budget for category `"cB"` (display name `"Transporte"`). -/
def o_b : Orcamento :=
  { id_orcamento := "o1", id_usuario := "u1", id_categoria := "cB",
    mes_referencia := 1, ano_referencia := 2025, limite_total := 100 }

/-- A budget for category `"cA"` (display name `"Alimentacao"`). -/
def o_a : Orcamento :=
  { id_orcamento := "o2", id_usuario := "u1", id_categoria := "cA",
    mes_referencia := 1, ano_referencia := 2025, limite_total := 100 }

/-- The category row behind `o_a`. -/
def cat_a : Categoria := { id_categoria := "cA", nome := "Alimentacao" }

/-- The category row behind `o_b`. -/
def cat_b : Categoria := { id_categoria := "cB", nome := "Transporte" }

/-- A previously stored Prediction. -/
def p_ex : PrevisaoIA :=
  { data_geracao := 1, valor_projetado := 100, indice_risco := "VERDE",
    mensagem_insight := "mensagem antiga", mes_alvo := 1, ano_alvo := 2025 }

/-! ### Theorems settling the claims -/

/-- The grouping fold of the statistics calculator only looks at the
outflow (`"SAIDA"`) transactions: folding `gastos_step` over a history is
folding it over the history's outflow sublist. -/
theorem gastos_foldl_filter (h : List Transacao)
    (acc : List ((Int × Nat) × ℚ)) :
    h.foldl gastos_step acc =
      (h.filter fun t => t.tipo == "SAIDA").foldl gastos_step acc := by
  induction h generalizing acc with
  | nil => rfl
  | cons t ts ih =>
    simp only [List.foldl_cons, List.filter_cons]
    by_cases ht : t.tipo = "SAIDA"
    · rw [if_pos (by simp [ht])]
      simp only [List.foldl_cons]
      exact ih _
    · rw [if_neg (by simp [ht])]
      have hstep : gastos_step acc t = acc := by simp [gastos_step, ht]
      rw [hstep]
      exact ih _

/-- A history whose monthly grouping is empty (in particular one with no
outflow entries at all) produces the all-zero / stable statistics. -/
theorem estatisticas_of_gastos_nil (h : List Transacao)
    (hg : gastos_por_mes h = []) :
    calcular_estatisticas_historicas h =
      .ok { media_gastos_mes := 0, desvio_padrao := 0,
            tendencia := "estavel", total_historico := 0 } := by
  by_cases he : h.isEmpty
  · simp [calcular_estatisticas_historicas, he]
  · simp [calcular_estatisticas_historicas, he, hg, detectar_tendencia]

/-- C2: the Historical Statistics Calculator does return the all-zero /
stable record on an empty history, but it does NOT return without
exception on every input: as soon as two monthly outflow sums exist,
line 122 (`variancia ** 0.5`) mixes a `Decimal` with a float and raises
`TypeError`, so no standard deviation is ever produced for two or more
values. -/
theorem estatisticas_empty_ok_two_months_raise :
    calcular_estatisticas_historicas [] =
      .ok { media_gastos_mes := 0, desvio_padrao := 0,
            tendencia := "estavel", total_historico := 0 } ∧
    calcular_estatisticas_historicas [t_jan, t_fev] = .error typeErrorPow :=
  ⟨rfl, rfl⟩

/-- C4: the trend detection rule (lines 126-133 of
`ia_analysis_service.py`) classifies any sequence of monthly sums ending
in `... x y z` as rising when `z > x * 1.1`, falling when `z < x * 0.9`,
and stable otherwise, and any sequence of fewer than 3 values as
stable. -/
theorem trend_rule :
    (∀ (init : List ℚ) (x y z : ℚ),
        detectar_tendencia (init ++ [x, y, z]) =
          if x * (11/10) < z then "crescente"
          else if z < x * (9/10) then "decrescente"
          else "estavel") ∧
    (∀ valores : List ℚ, valores.length < 3 →
        detectar_tendencia valores = "estavel") := by
  constructor
  · intro init x y z
    have hlen : (init ++ [x, y, z]).length = init.length + 3 := by simp
    have hdrop : (init ++ [x, y, z]).drop ((init ++ [x, y, z]).length - 3)
        = [x, y, z] := by
      rw [hlen, Nat.add_sub_cancel]
      simp [List.drop_left init [x, y, z]]
    simp only [detectar_tendencia, hlen, hdrop]
    simp [List.getLastD]
  · intro valores h
    simp only [detectar_tendencia]
    rw [if_neg (by omega)]

/-- Witness for C4, instantiating the rule at the three examples of the
claim and at a two-element sequence. -/
theorem trend_rule_witness :
    detectar_tendencia [100, 100, 115] = "crescente" ∧
    detectar_tendencia [100, 100, 89] = "decrescente" ∧
    detectar_tendencia [100, 100, 100] = "estavel" ∧
    detectar_tendencia [100, 100] = "estavel" := by
  refine ⟨?_, ?_, ?_, trend_rule.2 [100, 100] (by simp)⟩
  · have h := trend_rule.1 [] 100 100 115
    simp only [List.nil_append] at h
    rw [h]
    norm_num
  · have h := trend_rule.1 [] 100 100 89
    simp only [List.nil_append] at h
    rw [h]
    norm_num
  · have h := trend_rule.1 [] 100 100 100
    simp only [List.nil_append] at h
    rw [h]
    norm_num

/-- C7: at the failing input — empty prediction store, history with
outflows in two distinct months — the lazy get-or-generate path does not
generate and persist a Prediction: the statistics step raises `TypeError`
(see `calcular_estatisticas_historicas`) and the error propagates, with
nothing persisted; the explicit refresh path (`gerar_previsao`, which the
dashboard refresh endpoint always calls) fails the same way even when a
Prediction is already stored. -/
theorem get_ultima_previsao_raises_on_generation :
    get_ultima_previsao [t_jan, t_fev] [o_ex] 300 5 31 1 2025 10 [] =
      .error typeErrorPow ∧
    gerar_previsao [t_jan, t_fev] [o_ex] 300 5 31 1 2025 10 [p_ex] =
      .error typeErrorPow :=
  ⟨rfl, rfl⟩

/-- C1: the risk classifier of the source is exactly the ordered rule
chain of the spec, under the coding VERDE = low, AMARELO = medium,
VERMELHO = high, and — in particular — whenever budgets exist and the
projected percentage exceeds 90, the answer is VERMELHO (high) whatever
the day-of-month and the trend. -/
theorem risk_classifier_matches_spec_chain
    (orcamentos : List Orcamento) (vp ga : ℚ) (dia : Nat) (t : Trend) :
    calcular_indice_risco orcamentos vp ga dia (trendStr t) =
      tierStr (risk_spec_chain orcamentos vp ga dia t) ∧
    (orcamentos ≠ [] →
      90 < vp / (orcamentos.map Orcamento.limite_total).sum * 100 →
      0 < (orcamentos.map Orcamento.limite_total).sum →
      calcular_indice_risco orcamentos vp ga dia (trendStr t) = "VERMELHO") := by
  have hchain : calcular_indice_risco orcamentos vp ga dia (trendStr t) =
      tierStr (risk_spec_chain orcamentos vp ga dia t) := by
    simp only [calcular_indice_risco, risk_spec_chain, List.isEmpty_iff]
    by_cases he : orcamentos = []
    · simp [he, tierStr]
    · simp only [he, if_false]
      rcases lt_or_le 0 ((orcamentos.map Orcamento.limite_total).sum) with hl | hl
      · simp only [if_pos hl, if_neg (not_le.mpr hl)]
        cases t <;>
          simp only [trendStr] <;>
          split_ifs with h1 h2 h3 h4 <;>
          simp_all [tierStr]
      · simp only [if_neg (not_lt.mpr hl), if_pos hl]
        cases t <;>
          simp only [trendStr] <;>
          split_ifs with h1 h2 h3 h4 <;>
          simp_all [tierStr]
  refine ⟨hchain, fun he hp hl => ?_⟩
  rw [hchain]
  simp only [risk_spec_chain, if_neg he]
  rw [if_neg (not_le.mpr hl), if_pos hp]
  rfl

/-- Witness for C1: one budget with limit 100, projection 95 (projected
percentage 95 > 90), day 25, stable trend — classified VERMELHO. -/
theorem risk_classifier_witness :
    calcular_indice_risco [o_ex] 95 0 25 "estavel" = "VERMELHO" := by
  have h := (risk_classifier_matches_spec_chain [o_ex] 95 0 25 Trend.stable).2
    (by simp) (by norm_num [o_ex]) (by norm_num [o_ex])
  simpa [trendStr] using h

/-- C3 counterexample: the Spend Projector rounds with the decimal
context's default ROUND_HALF_EVEN, not the standard half-up rounding the
claim states.  With actual total 0.03, 20 elapsed days, 30 days in the
month and stable trend, the base is exactly 0.045: the code returns 0.04
(ties to even) while the claim's half-up formula gives 0.05. -/
theorem projetar_rounding_counterexample :
    projetar_gasto_mes (3/100) 20 30 "estavel" 0 = 1/25 ∧
    projetar_spec_half_up (3/100) 20 30 Trend.stable 0 = 1/20 := by
  constructor
  · simp only [projetar_gasto_mes, quantize_half_even, round_half_even,
      show (("estavel" : String) = "crescente") = False by simp,
      show (("estavel" : String) = "decrescente") = False by simp]
    norm_num
  · simp only [projetar_spec_half_up, quantize_half_up, round_half_up,
      trendMultiplier]
    norm_num

/-- C3 as amended: the Spend Projector returns
`round((actualTotal/elapsedDays * totalDaysInMonth) * m, 2 fractional
digits, ties to even)` with m = 1.10 / 0.90 / 1.00 for rising / falling /
stable, the base being the historical mean when no day has elapsed. -/
theorem projetar_formula_half_even (g : ℚ) (d m : Nat) (t : Trend) (mean : ℚ) :
    projetar_gasto_mes g d m (trendStr t) mean =
      quantize_half_even
        ((if 0 < d then g / (d : ℚ) * (m : ℚ) else mean) * trendMultiplier t) := by
  cases t <;>
    simp only [projetar_gasto_mes, trendStr, trendMultiplier] <;>
    split_ifs <;>
    simp_all

/-- C10: as soon as at least one day of the month has elapsed — and the
engine always passes `now.day ≥ 1` — the projection is the daily-rate
extrapolation: it does not depend on the historical mean (the fallback
branch is dead), and equals the rounded
`actualTotal/elapsedDays * totalDaysInMonth` times the trend
multiplier. -/
theorem projetar_day_positive (g : ℚ) (dia dias_no_mes : Nat)
    (tendencia : String) (media media' : ℚ) (hd : 1 ≤ dia) :
    projetar_gasto_mes g dia dias_no_mes tendencia media =
      projetar_gasto_mes g dia dias_no_mes tendencia media' ∧
    ∀ t : Trend, projetar_gasto_mes g dia dias_no_mes (trendStr t) media =
      quantize_half_even (g / (dia : ℚ) * (dias_no_mes : ℚ) * trendMultiplier t) := by
  have h0 : 0 < dia := hd
  constructor
  · simp [projetar_gasto_mes, h0]
  · intro t
    cases t <;>
      simp only [projetar_gasto_mes, trendStr, trendMultiplier, if_pos h0] <;>
      simp

/-- Witness for C10: with one elapsed day the result ignores the
historical mean, and a concrete daily-rate projection evaluates as the
formula says (100 over 10 days, 30-day month, stable trend: 300). -/
theorem projetar_day_positive_witness :
    projetar_gasto_mes 31 1 31 "estavel" 0 =
      projetar_gasto_mes 31 1 31 "estavel" 999 ∧
    projetar_gasto_mes 100 10 30 "estavel" 5 = 300 := by
  constructor
  · exact (projetar_day_positive 31 1 31 "estavel" 0 999 (by norm_num)).1
  · have h := (projetar_day_positive 100 10 30 "estavel" 5 5 (by norm_num)).2
      Trend.stable
    rw [show trendStr Trend.stable = "estavel" from rfl] at h
    rw [h]
    simp only [quantize_half_even, round_half_even, trendMultiplier]
    norm_num

/-- C9: the Historical Statistics Calculator is insensitive to inflow
(`"ENTRADA"`) entries: two histories with the same outflow sublist (in the
same order) produce identical results — the same statistics record, or
the same raised exception. -/
theorem estatisticas_ignore_inflows (h1 h2 : List Transacao)
    (hfil : h1.filter (fun t => t.tipo == "SAIDA") =
      h2.filter (fun t => t.tipo == "SAIDA")) :
    calcular_estatisticas_historicas h1 = calcular_estatisticas_historicas h2 := by
  have hg : gastos_por_mes h1 = gastos_por_mes h2 := by
    unfold gastos_por_mes
    rw [gastos_foldl_filter h1, gastos_foldl_filter h2, hfil]
  by_cases hnil : gastos_por_mes h1 = []
  · rw [estatisticas_of_gastos_nil h1 hnil,
      estatisticas_of_gastos_nil h2 (hg ▸ hnil)]
  · have he1 : h1.isEmpty = false := by
      cases h1 with
      | nil => exact absurd rfl hnil
      | cons a l => rfl
    have he2 : h2.isEmpty = false := by
      cases h2 with
      | nil =>
        rw [show gastos_por_mes ([] : List Transacao) = [] from rfl] at hg
        exact absurd hg hnil
      | cons a l => rfl
    simp only [calcular_estatisticas_historicas, hg]
    rw [he1, he2]

/-- Witness for C9: a history holding a single inflow yields the very
same result as the empty history. -/
theorem estatisticas_ignore_inflows_witness :
    calcular_estatisticas_historicas [t_entrada] =
      calcular_estatisticas_historicas [] :=
  estatisticas_ignore_inflows [t_entrada] [] rfl

/-- C5: each budget is turned into one view whose actual spend is the sum
of the outflow entries of its category and period, whose percent used is
exactly spend/limit×100 for a positive limit (0 under the defensive guard
for a non-positive limit), and whose remaining balance is exactly
limit − spend, negative whenever the spend exceeds the limit. -/
theorem budget_status_fields (orcamentos : List Orcamento)
    (transacoes : List Transacao) (categorias : List Categoria)
    (usuario_id : String) (mes : Nat) (ano : Int) (o : Orcamento)
    (ho : o ∈ orcamentos) :
    ∃ v ∈ get_orcamentos_com_status orcamentos transacoes categorias
        usuario_id mes ano,
      v.orcamento = o ∧
      v.gasto_atual =
        get_gasto_por_categoria transacoes usuario_id o.id_categoria mes ano ∧
      (0 < o.limite_total → v.percentual_uso =
        get_gasto_por_categoria transacoes usuario_id o.id_categoria mes ano /
          o.limite_total * 100) ∧
      (o.limite_total ≤ 0 → v.percentual_uso = 0) ∧
      v.saldo_disponivel = o.limite_total -
        get_gasto_por_categoria transacoes usuario_id o.id_categoria mes ano ∧
      (o.limite_total <
          get_gasto_por_categoria transacoes usuario_id o.id_categoria mes ano →
        v.saldo_disponivel < 0) := by
  refine ⟨_, List.mem_map_of_mem _ ho, rfl, rfl, fun h => ?_, fun h => ?_,
    rfl, fun h => ?_⟩
  · exact if_pos h
  · exact if_neg (not_lt.mpr h)
  · exact sub_neg.mpr h

/-- Witness for C5: one budget of limit 100 with one outflow of 75 in its
category and period gives spend 75, percent used 75 and remaining
balance 25. -/
theorem budget_status_fields_witness :
    ∃ v ∈ get_orcamentos_com_status [o_ex] [t_ex] [] "u1" 1 2025,
      v.gasto_atual = 75 ∧ v.percentual_uso = 75 ∧ v.saldo_disponivel = 25 := by
  obtain ⟨v, hv, _, hg, hp, _, hs, _⟩ :=
    budget_status_fields [o_ex] [t_ex] [] "u1" 1 2025 o_ex (by simp)
  have hS : get_gasto_por_categoria [t_ex] "u1" o_ex.id_categoria 1 2025 = 75 := by
    simp [get_gasto_por_categoria, t_ex, o_ex]
  refine ⟨v, hv, ?_, ?_, ?_⟩
  · rw [hg, hS]
  · rw [hp (by norm_num [o_ex]), hS]
    norm_num [o_ex]
  · rw [hs, hS]
    norm_num [o_ex]

/-- C6 counterexample: the aggregator applies no sort (and the repository
query has no ORDER BY), so a repository order with the category names
reversed is passed through as-is: with the `"Transporte"` budget listed
before the `"Alimentacao"` one, the output violates the claimed
name-then-identifier ordering. -/
theorem aggregator_not_sorted_counterexample :
    ¬ List.Pairwise claimed_view_order
        (get_orcamentos_com_status [o_b, o_a] [] [cat_a, cat_b] "u1" 1 2025) := by
  intro hpair
  have hv : get_orcamentos_com_status [o_b, o_a] [] [cat_a, cat_b] "u1" 1 2025 =
      [{ orcamento := o_b, categoria_nome := "Transporte", gasto_atual := 0,
         percentual_uso := 0, saldo_disponivel := 100 },
       { orcamento := o_a, categoria_nome := "Alimentacao", gasto_atual := 0,
         percentual_uso := 0, saldo_disponivel := 100 }] := by
    simp [get_orcamentos_com_status, get_gasto_por_categoria, find_by_id,
      o_a, o_b, cat_a, cat_b]
  rw [hv] at hpair
  have h12 := (List.pairwise_cons.mp hpair).1 _ (List.mem_cons_self _ _)
  simp only [claimed_view_order] at h12
  rcases h12 with hlt | ⟨heq, _⟩
  · revert hlt
    rw [String.lt_iff_toList_lt]
    decide
  · exact absurd heq (by decide)

/-- C6 as amended: the Budget Status Aggregator produces exactly one view
per budget, in the order in which the repository returned the budgets —
no sorting by category name or budget identifier is applied. -/
theorem aggregator_preserves_input_order (orcamentos : List Orcamento)
    (transacoes : List Transacao) (categorias : List Categoria)
    (usuario_id : String) (mes : Nat) (ano : Int) :
    (get_orcamentos_com_status orcamentos transacoes categorias usuario_id
        mes ano).map StatusOrcamento.orcamento = orcamentos := by
  induction orcamentos with
  | nil => rfl
  | cons o os ih =>
    simp only [get_orcamentos_com_status, List.map_cons] at ih ⊢
    exact congrArg₂ List.cons rfl ih

/-- C8: for each of the three risk tiers the Insight Composer
deterministically returns the first template of that tier's pool — a fixed
string with the projected amount formatted to two fractional digits
embedded — and appends the trend-warning clause exactly when the trend is
`"crescente"` and the tier is not `"VERDE"`. -/
theorem insight_first_template (indice : String)
    (hi : indice = "VERDE" ∨ indice = "AMARELO" ∨ indice = "VERMELHO")
    (v : ℚ) (tendencia : String) :
    gerar_mensagem_insight indice v tendencia =
      (mensagens_pool indice (formatValor v)).headD "" ++
        (if tendencia = "crescente" ∧ indice ≠ "VERDE" then alerta_crescente
         else "") ∧
    ∃ pre post, gerar_mensagem_insight indice v tendencia =
      pre ++ formatValor v ++ post := by
  have hmain : gerar_mensagem_insight indice v tendencia =
      (mensagens_pool indice (formatValor v)).headD "" ++
        (if tendencia = "crescente" ∧ indice ≠ "VERDE" then alerta_crescente
         else "") := by
    simp only [gerar_mensagem_insight]
    split_ifs with h
    · rfl
    · simp
  refine ⟨hmain, ?_⟩
  rcases hi with h | h | h <;> subst h
  · refine ⟨"Ótimo trabalho! Seu gasto projetado é de R$ ",
      ". Você está no controle!", ?_⟩
    rw [hmain]
    rw [if_neg (by simp)]
    simp [mensagens_pool, mensagens_verde]
  · refine ⟨"Atenção: Gasto projetado de R$ ",
      ". Considere revisar gastos não essenciais." ++
        (if tendencia = "crescente" then alerta_crescente else ""), ?_⟩
    rw [hmain]
    have hne : ("AMARELO" : String) ≠ "VERDE" := by decide
    simp only [mensagens_pool, mensagens_amarelo,
      show (("AMARELO" : String) = "VERDE") = False by simp,
      if_false, List.headD_cons, hne, ne_eq, not_false_eq_true, and_true]
    split_ifs with h <;> simp [String.append_assoc]
  · refine ⟨"Alerta! Gasto projetado de R$ ",
      " pode exceder seu orçamento. Priorize o essencial! 🚨" ++
        (if tendencia = "crescente" then alerta_crescente else ""), ?_⟩
    rw [hmain]
    have hne : ("VERMELHO" : String) ≠ "VERDE" := by decide
    simp only [mensagens_pool, mensagens_vermelho,
      show (("VERMELHO" : String) = "VERDE") = False by simp,
      show (("VERMELHO" : String) = "AMARELO") = False by simp,
      if_false, List.headD_cons, hne, ne_eq, not_false_eq_true, and_true]
    split_ifs with h <;> simp [String.append_assoc]

/-- Witness for C8: a VERDE insight for a projection of 0.50 is exactly
the first VERDE template with "0.50" embedded, with no warning clause
appended even under a rising trend. -/
theorem insight_first_template_witness :
    gerar_mensagem_insight "VERDE" (1/2) "crescente" =
      "Ótimo trabalho! Seu gasto projetado é de R$ 0.50. Você está no controle!" := by
  have h := (insight_first_template "VERDE" (Or.inl rfl) (1/2) "crescente").1
  rw [h]
  have hf : formatValor (1/2) = "0.50" := by
    have hc : round_half_even ((1 : ℚ)/2 * 100) = 50 := by
      simp only [round_half_even]
      norm_num
    simp only [formatValor, hc]
    rfl
  rw [hf]
  rw [if_neg (by simp)]
  simp [mensagens_pool, mensagens_verde]

end Traevo
